import Mathlib

/-!
Shallow embedding of `src/src/net/http/pprof/pprof.go` (Go package
`net/http/pprof`), a thin HTTP adapter over the runtime profiling engines.

Modelling conventions:
* HTTP responses are a record of headers (association list with the
  set/delete semantics of Go's `http.Header`), a status code and a body
  string.  Bytes are modelled as `Char`/`String`.
* The external collaborators (CPU sampler, execution tracer, profile
  registry, symbol table, process argv) are passed in explicitly: the
  sampler and tracer each as a single `Bool` "active" flag (they permit one
  concurrent capture), the registry as `String → Bool` together with an
  abstract serialisation function, the symbol table as
  `Nat → Option String`, argv as `List String`.
* `time.Duration` values (64-bit nanosecond counts) are `Int`;
  second counts compared against them are exact rationals `ℚ`.  `float64`
  parsing (`strconv.ParseFloat`) is idealised over `ℚ`, restricted to
  finite decimal literals (the `Inf`/`NaN` spellings and float rounding
  are outside the model).
* `strconv.ParseInt`/`ParseUint` are modelled with their documented
  error results: 0 on a syntax error, the clamped extreme value on a
  range error (the handlers discard the error and keep the value).
-/

set_option autoImplicit false

namespace PprofModel

/-! ## strconv models -/

/-- Value of a decimal digit character, `none` if not a digit. -/
def decDigit? (c : Char) : Option Nat :=
  if '0' ≤ c ∧ c ≤ '9' then some (c.toNat - 48) else none

/-- Value of a hexadecimal digit character (either case), `none` otherwise. -/
def hexDigit? (c : Char) : Option Nat :=
  if '0' ≤ c ∧ c ≤ '9' then some (c.toNat - 48)
  else if 'a' ≤ c ∧ c ≤ 'f' then some (c.toNat - 87)
  else if 'A' ≤ c ∧ c ≤ 'F' then some (c.toNat - 55)
  else none

/-- Value of an octal digit character, `none` otherwise. -/
def octDigit? (c : Char) : Option Nat :=
  if '0' ≤ c ∧ c ≤ '7' then some (c.toNat - 48) else none

/-- Fold a nonempty digit string to its value in the given base, using the
given per-digit reader; `none` on an empty string or a bad digit
(Go `strconv` syntax error). -/
def digitsVal? (digit? : Char → Option Nat) (base : Nat) (cs : List Char) : Option Nat :=
  match cs with
  | [] => none
  | _ =>
    cs.foldl (fun acc c =>
      match acc, digit? c with
      | some a, some d => some (a * base + d)
      | _, _ => none) (some 0)

/-- Go `strconv.ParseInt(s, 10, 64)` with the error discarded, as the
handlers do (`sec, _ := strconv.ParseInt(...)`, `strconv.Atoi` with `_`):
0 on a syntax error, and the value clamped to the int64 range on a range
error.  `strconv.Atoi` is this same function (int is 64-bit). -/
def goParseInt10 (s : String) : Int :=
  let (neg, ds) : Bool × List Char :=
    match s.data with
    | '-' :: t => (true, t)
    | '+' :: t => (false, t)
    | t => (false, t)
  match digitsVal? decDigit? 10 ds with
  | none => 0
  | some n =>
    if neg then
      if (2 : Nat) ^ 63 < n then -(2 ^ 63) else -(n : Int)
    else
      if (2 : Nat) ^ 63 - 1 < n then 2 ^ 63 - 1 else (n : Int)

/-- Go `strconv.ParseUint(s, 0, 64)` with the error discarded, as `Symbol`
does (`pc, _ := strconv.ParseUint(string(word), 0, 64)`).  Base 0 means the
base is read off the prefix: `0x`/`0X` hexadecimal, a leading `0` octal,
decimal otherwise; no sign is accepted.  Syntax errors give 0, range
errors give the clamped maximum `2^64 - 1`. -/
def goParseUint0 (s : String) : Nat :=
  let val? : Option Nat :=
    match s.data with
    | '0' :: x :: rest =>
      if x = 'x' ∨ x = 'X' then digitsVal? hexDigit? 16 rest
      else digitsVal? octDigit? 8 (x :: rest)
    | cs => digitsVal? decDigit? 10 cs
  match val? with
  | none => 0
  | some n => if (2 : Nat) ^ 64 - 1 < n then 2 ^ 64 - 1 else n

/-- Go `strconv.ParseFloat(s, 64)` idealised over `ℚ`: `none` where Go
reports an error (which `Trace` turns into the default), the exact rational
value of a finite decimal literal (optional sign, decimal digits with an
optional fraction part, optional decimal exponent) otherwise.  The `Inf`
and `NaN` spellings and float64 rounding are outside the model. -/
def goParseFloat (s : String) : Option ℚ :=
  let (neg, cs) : Bool × List Char :=
    match s.data with
    | '-' :: t => (true, t)
    | '+' :: t => (false, t)
    | t => (false, t)
  let (mant, expPart) := cs.span (fun c => c ≠ 'e' ∧ c ≠ 'E')
  let mantVal? : Option ℚ :=
    match mant.span (fun c => (decDigit? c).isSome) with
    | (ip, []) => (digitsVal? decDigit? 10 ip).map (fun n => (n : ℚ))
    | (ip, '.' :: fp) =>
      if (ip ≠ [] ∨ fp ≠ []) ∧ fp.all (fun c => (decDigit? c).isSome) then
        some ((digitsVal? decDigit? 10 ip).getD 0 +
          ((digitsVal? decDigit? 10 fp).getD 0 : ℚ) / 10 ^ fp.length)
      else none
    | _ => none
  let expVal? : Option Int :=
    match expPart with
    | [] => some 0
    | _ :: ecs =>
      let (eneg, eds) : Bool × List Char :=
        match ecs with
        | '-' :: t => (true, t)
        | '+' :: t => (false, t)
        | t => (false, t)
      (digitsVal? decDigit? 10 eds).map (fun n => if eneg then -(n : Int) else (n : Int))
  match mantVal?, expVal? with
  | some m, some e =>
    let scaled : ℚ := if 0 ≤ e then m * 10 ^ e.toNat else m / 10 ^ (-e).toNat
    some (if neg then -scaled else scaled)
  | _, _ => none

/-! ## HTTP response model -/

/-- Response headers: Go's `http.Header` restricted to the operations the
package uses (`Set`, `Del`, and reading a single value).  All keys the
package writes are already in canonical form. -/
def headerSet (hs : List (String × String)) (k v : String) : List (String × String) :=
  (k, v) :: hs.filter (fun p => p.1 ≠ k)

/-- Go `http.Header.Del`. -/
def headerDel (hs : List (String × String)) (k : String) : List (String × String) :=
  hs.filter (fun p => p.1 ≠ k)

/-- Read the value of a header, `none` when absent. -/
def headerGet (hs : List (String × String)) (k : String) : Option String :=
  (hs.find? (fun p => p.1 = k)).map (·.2)

/-- An HTTP response as this package observably builds it: headers, the
status code (200 unless `WriteHeader` is called, which each handler does at
most once), and the accumulated body bytes. -/
structure Response where
  headers : List (String × String)
  status : Nat
  body : String
  deriving DecidableEq, Repr

/-- Response state before a handler writes anything. -/
def emptyResponse : Response := { headers := [], status := 200, body := "" }

/-! ## Shared helpers: write-timeout check and error responses -/

/-- The host `http.Server` as the package sees it through the request
context: only its `WriteTimeout`, a `time.Duration` in nanoseconds
(0 means no timeout configured). -/
structure GoServer where
  writeTimeout : Int
  deriving DecidableEq, Repr

/-- Go `time.Duration.Seconds()`: the duration as an exact number of
seconds (`float64` in Go, idealised to `ℚ`). -/
def durationSeconds (d : Int) : ℚ := (d : ℚ) / 1000000000

/-- Source `durationExceedsWriteTimeout` (pprof.go:99-102): true when the
request context carries a server, its `WriteTimeout` is nonzero, and the
requested seconds meet or exceed `WriteTimeout.Seconds()`.  The `Option`
is the type assertion `ok`: `none` when no server is in the context. -/
def durationExceedsWriteTimeout (srv : Option GoServer) (seconds : ℚ) : Bool :=
  match srv with
  | none => false
  | some s => s.writeTimeout ≠ 0 && durationSeconds s.writeTimeout ≤ seconds

/-- Source `serveError` (pprof.go:104-110): set a plain-text content type
and the `X-Go-Pprof: 1` marker header, delete any `Content-Disposition`
header, write the status code, and print the text followed by a newline
(`fmt.Fprintln`). -/
def serveError (resp : Response) (status : Nat) (txt : String) : Response :=
  { headers :=
      headerDel
        (headerSet (headerSet resp.headers "Content-Type" "text/plain; charset=utf-8")
          "X-Go-Pprof" "1")
        "Content-Disposition",
    status := status,
    body := resp.body ++ txt ++ "\n" }

/-! ## Timed CPU-profile handler (`Profile`) -/

/-- Request data `Profile` and `Trace` read: the `seconds` form value
(empty string when the parameter is absent, which is how `r.FormValue`
reports absence) and the server taken from the request context. -/
structure TimedRequest where
  seconds : String
  server : Option GoServer
  deriving DecidableEq, Repr

/-- Observable outcome of a timed capture handler: the response, whether
the capture engine was started, how long the handler slept before stopping
it (`none` when no capture ran), and the engine's active flag when the
handler returns. -/
structure TimedOutcome where
  resp : Response
  started : Bool
  sleptSeconds : Option ℚ
  activeAfter : Bool
  deriving DecidableEq, Repr

/-- Source lines 116-119 of `Profile`: parse `seconds` as a base-10 int64
discarding the error, and substitute 30 when the result is 0 (covering an
absent parameter and any syntax error). -/
def profileSecondsOf (s : String) : Int :=
  let sec := goParseInt10 s
  if sec = 0 then 30 else sec

/-- Source `Profile` (pprof.go:114-138).  `active` is the external CPU
sampler's process-wide active flag: `pprof.StartCPUProfile` fails exactly
when a capture is already running (error "cpu profiling already in use"),
and on success streams `samplerOutput` into the response until
`StopCPUProfile`.  The sleep between start and stop is recorded as
`sleptSeconds` (client disconnect can only shorten the real sleep). -/
def Profile (r : TimedRequest) (active : Bool) (samplerOutput : String) : TimedOutcome :=
  let resp := { emptyResponse with
    headers := headerSet emptyResponse.headers "X-Content-Type-Options" "nosniff" }
  let sec := profileSecondsOf r.seconds
  if durationExceedsWriteTimeout r.server (sec : ℚ) then
    { resp := serveError resp 400 "profile duration exceeds server's WriteTimeout",
      started := false, sleptSeconds := none, activeAfter := active }
  else
    let resp := { resp with
      headers := headerSet
        (headerSet resp.headers "Content-Type" "application/octet-stream")
        "Content-Disposition" "attachment; filename=\"profile\"" }
    if active then
      { resp := serveError resp 500
          "Could not enable CPU profiling: cpu profiling already in use",
        started := false, sleptSeconds := none, activeAfter := active }
    else
      { resp := { resp with body := resp.body ++ samplerOutput },
        started := true, sleptSeconds := some (sec : ℚ), activeAfter := false }

/-! ## Timed execution-trace handler (`Trace`) -/

/-- Source lines 145-148 of `Trace`: parse `seconds` as a float and replace
it with 1 when the parse errored or the value is not positive. -/
def traceSecondsOf (s : String) : ℚ :=
  match goParseFloat s with
  | none => 1
  | some sec => if sec ≤ 0 then 1 else sec

/-- Source `Trace` (pprof.go:143-167), same shape as `Profile` with the
execution tracer in place of the CPU sampler: `trace.Start` fails exactly
when tracing is already enabled (error "tracing is already enabled"). -/
def Trace (r : TimedRequest) (active : Bool) (tracerOutput : String) : TimedOutcome :=
  let resp := { emptyResponse with
    headers := headerSet emptyResponse.headers "X-Content-Type-Options" "nosniff" }
  let sec := traceSecondsOf r.seconds
  if durationExceedsWriteTimeout r.server sec then
    { resp := serveError resp 400 "profile duration exceeds server's WriteTimeout",
      started := false, sleptSeconds := none, activeAfter := active }
  else
    let resp := { resp with
      headers := headerSet
        (headerSet resp.headers "Content-Type" "application/octet-stream")
        "Content-Disposition" "attachment; filename=\"trace\"" }
    if active then
      { resp := serveError resp 500
          "Could not enable tracing: tracing is already enabled",
        started := false, sleptSeconds := none, activeAfter := active }
    else
      { resp := { resp with body := resp.body ++ tracerOutput },
        started := true, sleptSeconds := some sec, activeAfter := false }

/-! ## Named-profile handler (`handler.ServeHTTP`) -/

/-- Request data `handler.ServeHTTP` reads: the `gc` and `debug` form
values (empty string when absent). -/
structure NamedRequest where
  gc : String
  debug : String
  deriving DecidableEq, Repr

/-- Observable outcome of the named-profile handler: the response and
whether `runtime.GC()` was invoked. -/
structure NamedOutcome where
  resp : Response
  gcTriggered : Bool
  deriving DecidableEq, Repr

/-- Source `handler.ServeHTTP` (pprof.go:227-246).  The external profile
registry (`pprof.Lookup`) is `registry : String → Bool` (found or not) and
the found profile's `WriteTo` output is the abstract
`writeTo name debug`.  `strconv.Atoi` with a discarded error is
`goParseInt10`. -/
def handlerServeHTTP (registry : String → Bool) (writeTo : String → Int → String)
    (name : String) (r : NamedRequest) : NamedOutcome :=
  let resp := { emptyResponse with
    headers := headerSet emptyResponse.headers "X-Content-Type-Options" "nosniff" }
  if ¬ registry name then
    { resp := serveError resp 404 "Unknown profile", gcTriggered := false }
  else
    let gc := goParseInt10 r.gc
    let gcTriggered : Bool := decide (name = "heap") && decide (0 < gc)
    let debug := goParseInt10 r.debug
    let resp :=
      if debug ≠ 0 then
        { resp with headers := headerSet resp.headers "Content-Type" "text/plain; charset=utf-8" }
      else
        { resp with
          headers :=
            headerSet (headerSet resp.headers "Content-Type" "application/octet-stream")
              "Content-Disposition" ("attachment; filename=\"" ++ name ++ "\"") }
    { resp := { resp with body := resp.body ++ writeTo name debug },
      gcTriggered := gcTriggered }

/-! ## Command-line echo (`Cmdline`) -/

/-- Format-directive characters that Go's `fmt` scanner consumes between
the `%` and the verb: flags, width and precision digits. -/
def fmtDirectiveChar (c : Char) : Bool :=
  c = '+' ∨ c = '-' ∨ c = '#' ∨ c = ' ' ∨ c = '0' ∨ c = '.' ∨ (decDigit? c).isSome

/-- Core of `fmt.Fprintf` applied with NO operands, as `Cmdline` does at
pprof.go:85 (`fmt.Fprintf(w, strings.Join(os.Args, "\x00"))`): ordinary
characters are copied; `%%` emits `%`; a verb letter with no operand left
emits `%!v(MISSING)`; a `%` at end of format emits `%!(NOVERB)`; a
non-letter verb emits `%!c(NOVERB)`.  Formats using `*` width/precision
are outside the model.  `fuel` only bounds the recursion; any fuel of at
least the input length gives the fixed point. -/
def fprintfNoArgsAux : Nat → List Char → List Char
  | 0, _ => []
  | _ + 1, [] => []
  | fuel + 1, c :: rest =>
    if c = '%' then
      let afterDirectives := rest.dropWhile fmtDirectiveChar
      match afterDirectives with
      | [] => "%!(NOVERB)".data
      | v :: t =>
        if v = '%' then '%' :: fprintfNoArgsAux fuel t
        else if v.isAlpha then
          "%!".data ++ [v] ++ "(MISSING)".data ++ fprintfNoArgsAux fuel t
        else
          "%!".data ++ [v] ++ "(NOVERB)".data ++ fprintfNoArgsAux fuel t
    else
      c :: fprintfNoArgsAux fuel rest

/-- Go `fmt.Fprintf(w, s)` with no operand arguments: the bytes written. -/
def fprintfNoArgs (s : String) : String :=
  String.mk (fprintfNoArgsAux s.data.length s.data)

/-- Source `Cmdline` (pprof.go:82-86): set the nosniff and plain-text
headers, then `fmt.Fprintf(w, strings.Join(os.Args, "\x00"))` — the
NUL-joined argument vector is used as the FORMAT STRING of `Fprintf` with
no operands (`strings.Join` is `String.intercalate`). -/
def Cmdline (argv : List String) : Response :=
  { headers :=
      headerSet
        (headerSet emptyResponse.headers "X-Content-Type-Options" "nosniff")
        "Content-Type" "text/plain; charset=utf-8",
    status := 200,
    body := fprintfNoArgs (String.intercalate "\x00" argv) }

/-! ## Symbol resolver (`Symbol`) -/

/-- Result of one `bufio.Reader.ReadSlice('+')` call as the `Symbol` loop
observes it: `none` for success (the returned word ends in the `+`
delimiter), end-of-input, or another read error with its message. -/
inductive ReadErr where
  | eof
  | other (msg : String)
  deriving DecidableEq, Repr

/-- Go `fmt` `%#x` formatting of a positive integer: `0x` followed by
lowercase hexadecimal digits (`Nat.toDigits 16` uses lowercase). -/
def goHex (n : Nat) : String := "0x" ++ String.mk (Nat.toDigits 16 n)

/-- One iteration's output lines for a word (pprof.go:197-203): parse the
word as a base-0 uint64 discarding the error, skip the word when it parsed
to 0, otherwise resolve it through the external symbol table
(`runtime.FuncForPC`, `nil` modelled as `none`) and emit a
`<hex-address> <function-name>` line when resolution succeeds. -/
def tokenLines (symtab : Nat → Option String) (word : String) : List String :=
  let pc := goParseUint0 word
  if pc = 0 then []
  else
    match symtab pc with
    | some fname => [goHex pc ++ " " ++ fname]
    | none => []

/-- The `Symbol` read loop (pprof.go:192-213) over a stream of `ReadSlice`
results.  On success the trailing `+` is trimmed before parsing; the error
check happens only after the word is processed, so the word carried by an
`eof` or error result is still processed; a non-`eof` error additionally
appends one `reading request:` line; both stop the loop, ignoring the rest
of the stream. -/
def symbolLoop (symtab : Nat → Option String) :
    List (String × Option ReadErr) → List String
  | [] => []
  | (w, none) :: rest => tokenLines symtab (w.dropRight 1) ++ symbolLoop symtab rest
  | (w, some ReadErr.eof) :: _ => tokenLines symtab w
  | (w, some (ReadErr.other m)) :: _ =>
    tokenLines symtab w ++ ["reading request: " ++ m]

/-- Body the `Symbol` handler buffers and writes: the fixed
`num_symbols: 1` line (pprof.go:183, pprof only distinguishes zero from
nonzero) followed by the loop's lines, each newline-terminated. -/
def symbolBody (symtab : Nat → Option String)
    (stream : List (String × Option ReadErr)) : String :=
  "num_symbols: 1\n" ++ String.join ((symbolLoop symtab stream).map (· ++ "\n"))

/-- Accumulator-based splitting of an in-memory input into the sequence of
`ReadSlice('+')` results. -/
def readResultsAux (acc : List Char) : List Char → List (String × Option ReadErr)
  | [] => [(String.mk acc.reverse, some ReadErr.eof)]
  | '+' :: rest => (String.mk (acc.reverse ++ ['+']), none) :: readResultsAux [] rest
  | c :: rest => readResultsAux (c :: acc) rest

/-- The `ReadSlice('+')` results a `bufio.Reader` over a fully available
in-memory input produces (a GET query string, or a POST body that reads
without error): each chunk up to and including a `+`, then the final
delimiter-free remainder together with `io.EOF`.  Reader buffering of
words longer than the 4096-byte buffer (`ErrBufferFull`) is outside the
model. -/
def readResults (s : String) : List (String × Option ReadErr) :=
  readResultsAux [] s.data

/-- Source `Symbol` (pprof.go:172-216) for a request whose token source
(POST body or raw query) is the in-memory string `input`: headers, then
the buffered body written at the end. -/
def Symbol (symtab : Nat → Option String) (input : String) : Response :=
  { headers :=
      headerSet
        (headerSet emptyResponse.headers "X-Content-Type-Options" "nosniff")
        "Content-Type" "text/plain; charset=utf-8",
    status := 200,
    body := symbolBody symtab (readResults input) }

/-! ## Shared helper lemmas and sample data -/

/-- A word whose base-0 parse is a nonzero address present in the symbol
table produces exactly its `<hex-address> <function-name>` line. -/
theorem tokenLines_resolved (tbl : Nat → Option String) (w : String) (pc : Nat)
    (f : String) (hw : goParseUint0 w = pc) (hpc : pc ≠ 0) (h : tbl pc = some f) :
    tokenLines tbl w = [goHex pc ++ " " ++ f] := by
  simp [tokenLines, hw, hpc, h]

/-- A word whose base-0 parse is 0 is skipped: no line is produced. -/
theorem tokenLines_skipped (tbl : Nat → Option String) (w : String)
    (hw : goParseUint0 w = 0) : tokenLines tbl w = [] := by
  simp [tokenLines, hw]

/-- Sample symbol table used by concrete witnesses: addresses `0x1a` and
`0x2b` resolve, everything else does not. -/
def sampleSymtab : Nat → Option String :=
  fun n => if n = 26 then some "funcA" else if n = 43 then some "funcB" else none

/-- Accumulator for `splitOnNul`. -/
def splitOnNulAux (acc : List Char) : List Char → List String
  | [] => [String.mk acc.reverse]
  | c :: rest =>
    if c = '\x00' then String.mk acc.reverse :: splitOnNulAux [] rest
    else splitOnNulAux (c :: acc) rest

/-- Splitting a string at every NUL byte (Go `strings.Split(s, "\x00")`),
the observation the C2 claim is stated through. -/
def splitOnNul (s : String) : List String := splitOnNulAux [] s.data

/-! ## Claim theorems -/

/-- C2: the claim says the `Cmdline` body, split on NUL, equals the
argument vector verbatim, and `Cmdline`'s own doc comment promises the
same; but the code passes the NUL-joined argv to `fmt.Fprintf` as a FORMAT
STRING with no operands, so an argument containing a format verb is
mangled.  At `os.Args = ["test", "%d"]` the body is
`test\x00%!d(MISSING)`, whose NUL-split differs from the argument
vector. -/
theorem C2_cmdline_format_string_bug :
    (Cmdline ["test", "%d"]).body = "test\x00%!d(MISSING)" ∧
    splitOnNul (Cmdline ["test", "%d"]).body = ["test", "%!d(MISSING)"] ∧
    splitOnNul "test\x00%!d(MISSING)" ≠ ["test", "%d"] := by
  refine ⟨rfl, by decide, by decide⟩

/-- C4: a named-profile request whose name the registry does not know gets
HTTP 404 with a plain-text body, the `X-Content-Type-Options: nosniff` and
`X-Go-Pprof: 1` headers, and no `Content-Disposition` header (`serveError`
deletes it). -/
theorem C4_unknown_profile_404 (registry : String → Bool)
    (writeTo : String → Int → String) (name : String) (r : NamedRequest)
    (h : registry name = false) :
    (handlerServeHTTP registry writeTo name r).resp.status = 404 ∧
    (handlerServeHTTP registry writeTo name r).resp.body = "Unknown profile\n" ∧
    headerGet (handlerServeHTTP registry writeTo name r).resp.headers "Content-Type"
      = some "text/plain; charset=utf-8" ∧
    headerGet (handlerServeHTTP registry writeTo name r).resp.headers
      "X-Content-Type-Options" = some "nosniff" ∧
    headerGet (handlerServeHTTP registry writeTo name r).resp.headers "X-Go-Pprof"
      = some "1" ∧
    headerGet (handlerServeHTTP registry writeTo name r).resp.headers
      "Content-Disposition" = none := by
  simp [handlerServeHTTP, h, serveError, emptyResponse, headerSet, headerDel, headerGet]

/-- Witness for C4 at a concrete registry and request. -/
theorem C4_unknown_profile_404_witness :
    ((fun _ : String => false) "nope" = false) ∧
    (handlerServeHTTP (fun _ => false) (fun _ _ => "") "nope" ⟨"", ""⟩).resp.status
      = 404 := by
  exact ⟨rfl, (C4_unknown_profile_404 (fun _ => false) (fun _ _ => "") "nope"
    ⟨"", ""⟩ rfl).1⟩

/-- C5: a found named-profile request with `debug` parsing to 0 is served
as an octet-stream download with `Content-Disposition:
attachment; filename="<name>"`; with nonzero `debug` it is served as plain
text with no `Content-Disposition` header. -/
theorem C5_found_debug_disposition (registry : String → Bool)
    (writeTo : String → Int → String) (name : String) (r : NamedRequest)
    (h : registry name = true) :
    (goParseInt10 r.debug = 0 →
      headerGet (handlerServeHTTP registry writeTo name r).resp.headers "Content-Type"
        = some "application/octet-stream" ∧
      headerGet (handlerServeHTTP registry writeTo name r).resp.headers
        "Content-Disposition" = some ("attachment; filename=\"" ++ name ++ "\"")) ∧
    (goParseInt10 r.debug ≠ 0 →
      headerGet (handlerServeHTTP registry writeTo name r).resp.headers "Content-Type"
        = some "text/plain; charset=utf-8" ∧
      headerGet (handlerServeHTTP registry writeTo name r).resp.headers
        "Content-Disposition" = none) := by
  constructor
  · intro hd
    simp [handlerServeHTTP, h, hd, emptyResponse, headerSet, headerGet]
  · intro hd
    simp [handlerServeHTTP, h, hd, emptyResponse, headerSet, headerGet]

/-- Witness for C5 at a concrete registry and requests for both `debug`
values. -/
theorem C5_found_debug_disposition_witness :
    headerGet (handlerServeHTTP (fun _ => true) (fun _ _ => "D") "heap"
      ⟨"", ""⟩).resp.headers "Content-Disposition"
      = some "attachment; filename=\"heap\"" ∧
    headerGet (handlerServeHTTP (fun _ => true) (fun _ _ => "D") "heap"
      ⟨"", "2"⟩).resp.headers "Content-Disposition" = none := by
  constructor
  · exact (((C5_found_debug_disposition (fun _ => true) (fun _ _ => "D") "heap"
      ⟨"", ""⟩ rfl).1 (by decide)).2)
  · exact (((C5_found_debug_disposition (fun _ => true) (fun _ _ => "D") "heap"
      ⟨"", "2"⟩ rfl).2 (by decide)).2)

/-- C6: on a found named-profile request with `gc` parsing to a positive
value, `runtime.GC()` runs exactly when the requested name is `heap`; for
any other name (and any registry, request or `gc` value) no collection is
triggered. -/
theorem C6_gc_only_for_heap (registry : String → Bool)
    (writeTo : String → Int → String) (name : String) (r : NamedRequest)
    (hf : registry name = true) (hgc : 0 < goParseInt10 r.gc) :
    ((handlerServeHTTP registry writeTo name r).gcTriggered = true ↔ name = "heap") ∧
    (∀ (registry2 : String → Bool) (writeTo2 : String → Int → String)
        (r2 : NamedRequest), name ≠ "heap" →
      (handlerServeHTTP registry2 writeTo2 name r2).gcTriggered = false) := by
  constructor
  · simp [handlerServeHTTP, hf, hgc]
  · intro registry2 writeTo2 r2 hne
    by_cases h2 : registry2 name
    · simp [handlerServeHTTP, h2, hne]
    · simp [handlerServeHTTP, h2]

/-- Witness for C6 at a concrete registry: `heap?gc=1` collects,
`goroutine?gc=1` does not. -/
theorem C6_gc_only_for_heap_witness :
    (handlerServeHTTP (fun _ => true) (fun _ _ => "D") "heap" ⟨"1", ""⟩).gcTriggered
      = true ∧
    (handlerServeHTTP (fun _ => true) (fun _ _ => "D") "goroutine"
      ⟨"1", ""⟩).gcTriggered = false := by
  constructor
  · exact ((C6_gc_only_for_heap (fun _ => true) (fun _ _ => "D") "heap" ⟨"1", ""⟩
      rfl (by decide)).1).mpr rfl
  · exact (C6_gc_only_for_heap (fun _ => true) (fun _ _ => "D") "goroutine"
      ⟨"1", ""⟩ rfl (by decide)).2 (fun _ => true) (fun _ _ => "D") ⟨"1", ""⟩
      (by decide)

/-- C1: when the host server is in the request context with a nonzero
`WriteTimeout` and the computed capture duration meets or exceeds it, both
`Profile` and `Trace` answer HTTP 400 with the explanatory plain-text body
and attempt no capture: the engine is not started, no sleep happens, and
the engine's active flag is returned unchanged. -/
theorem C1_write_timeout_rejected (sp st : String) (wt : Int)
    (pact tact : Bool) (pout tout : String) (hwt : wt ≠ 0)
    (hp : durationSeconds wt ≤ (profileSecondsOf sp : ℚ))
    (ht : durationSeconds wt ≤ traceSecondsOf st) :
    (Profile ⟨sp, some ⟨wt⟩⟩ pact pout).resp.status = 400 ∧
    (Profile ⟨sp, some ⟨wt⟩⟩ pact pout).resp.body
      = "profile duration exceeds server's WriteTimeout\n" ∧
    headerGet (Profile ⟨sp, some ⟨wt⟩⟩ pact pout).resp.headers "Content-Type"
      = some "text/plain; charset=utf-8" ∧
    (Profile ⟨sp, some ⟨wt⟩⟩ pact pout).started = false ∧
    (Profile ⟨sp, some ⟨wt⟩⟩ pact pout).sleptSeconds = none ∧
    (Profile ⟨sp, some ⟨wt⟩⟩ pact pout).activeAfter = pact ∧
    (Trace ⟨st, some ⟨wt⟩⟩ tact tout).resp.status = 400 ∧
    (Trace ⟨st, some ⟨wt⟩⟩ tact tout).resp.body
      = "profile duration exceeds server's WriteTimeout\n" ∧
    (Trace ⟨st, some ⟨wt⟩⟩ tact tout).started = false ∧
    (Trace ⟨st, some ⟨wt⟩⟩ tact tout).sleptSeconds = none ∧
    (Trace ⟨st, some ⟨wt⟩⟩ tact tout).activeAfter = tact := by
  have hdp : durationExceedsWriteTimeout (some ⟨wt⟩) ((profileSecondsOf sp : Int) : ℚ)
      = true := by
    simp [durationExceedsWriteTimeout, hwt, hp]
  have hdt : durationExceedsWriteTimeout (some ⟨wt⟩) (traceSecondsOf st) = true := by
    simp [durationExceedsWriteTimeout, hwt, ht]
  simp [Profile, Trace, hdp, hdt, serveError, emptyResponse, headerSet, headerDel,
    headerGet]

/-- Witness for C1: a 5-second write-timeout server, a `/profile` request
defaulting to 30 seconds, and a `/trace?seconds=6` request. -/
theorem C1_write_timeout_rejected_witness :
    (Profile ⟨"", some ⟨5000000000⟩⟩ false "DATA").resp.status = 400 ∧
    (Trace ⟨"6", some ⟨5000000000⟩⟩ false "DATA").resp.status = 400 := by
  have hf : goParseFloat "6" = some 6 := by
    have h6 : '6'.toNat - 48 = 6 := by decide
    show some _ = _
    norm_num [h6]
  have ht6 : traceSecondsOf "6" = 6 := by
    simp only [traceSecondsOf, hf]
    norm_num
  have hp : durationSeconds 5000000000 ≤ ((profileSecondsOf "" : Int) : ℚ) := by
    rw [show profileSecondsOf "" = 30 from rfl]
    norm_num [durationSeconds]
  have ht : durationSeconds 5000000000 ≤ traceSecondsOf "6" := by
    rw [ht6]
    norm_num [durationSeconds]
  have h := C1_write_timeout_rejected "" "6" 5000000000 false false "DATA" "DATA"
    (by decide) hp ht
  exact ⟨h.1, h.2.2.2.2.2.2.1⟩

/-- C7: the duration `Trace` captures for is the `seconds` parameter
parsed as a float when the parse succeeds with a positive value, and 1
second when the parameter is absent or unparsable (`goParseFloat` gives
`none`; the absent parameter reads as the empty string) or non-positive;
whenever the tracer actually starts, the handler sleeps for exactly that
duration. -/
theorem C7_trace_duration (s : String) :
    (∀ v : ℚ, goParseFloat s = some v → 0 < v → traceSecondsOf s = v) ∧
    (goParseFloat s = none → traceSecondsOf s = 1) ∧
    (∀ v : ℚ, goParseFloat s = some v → v ≤ 0 → traceSecondsOf s = 1) ∧
    (∀ (srv : Option GoServer) (act : Bool) (tout : String),
      (Trace ⟨s, srv⟩ act tout).started = true →
      (Trace ⟨s, srv⟩ act tout).sleptSeconds = some (traceSecondsOf s)) := by
  refine ⟨?_, ?_, ?_, ?_⟩
  · intro v hv hpos
    simp [traceSecondsOf, hv, not_le.mpr hpos]
  · intro hv
    simp [traceSecondsOf, hv]
  · intro v hv hle
    simp [traceSecondsOf, hv, hle]
  · intro srv act tout
    simp only [Trace]
    split
    · simp
    · split <;> simp

/-- Witness for C7: `seconds=2.5` is used exactly, `seconds=0`,
`seconds=-5` and an absent parameter all become 1 second. -/
theorem C7_trace_duration_witness :
    traceSecondsOf "2.5" = 5 / 2 ∧ traceSecondsOf "0" = 1 ∧
    traceSecondsOf "-5" = 1 ∧ traceSecondsOf "" = 1 ∧
    (Trace ⟨"2.5", none⟩ false "T").sleptSeconds = some (traceSecondsOf "2.5") := by
  have h25 : goParseFloat "2.5" = some (5 / 2) := by
    have h1 : digitsVal? decDigit? 10 ['2'] = some 2 := by decide
    have h2 : digitsVal? decDigit? 10 ['5'] = some 5 := by decide
    show some _ = _
    norm_num [h1, h2]
  have h0 : goParseFloat "0" = some 0 := by
    have h1 : '0'.toNat - 48 = 0 := by decide
    show some _ = _
    norm_num [h1]
  have hm5 : goParseFloat "-5" = some (-5) := by
    have h1 : '5'.toNat - 48 = 5 := by decide
    show some _ = _
    norm_num [h1]
  refine ⟨(C7_trace_duration "2.5").1 (5 / 2) h25 (by norm_num),
    (C7_trace_duration "0").2.2.1 0 h0 le_rfl,
    (C7_trace_duration "-5").2.2.1 (-5) hm5 (by norm_num),
    (C7_trace_duration "").2.1 rfl,
    (C7_trace_duration "2.5").2.2.2 none false "T" ?_⟩
  simp only [Trace, durationExceedsWriteTimeout]
  simp

/-- C8: the duration `Profile` captures for is the `seconds` parameter
parsed as a base-10 integer, with 30 substituted exactly when that parse
gives 0 (an absent parameter reads as the empty string and parses to 0);
whenever the sampler actually starts, the handler sleeps for exactly that
duration. -/
theorem C8_profile_duration (s : String) :
    (goParseInt10 s ≠ 0 → profileSecondsOf s = goParseInt10 s) ∧
    (goParseInt10 s = 0 → profileSecondsOf s = 30) ∧
    profileSecondsOf "" = 30 ∧
    (∀ (srv : Option GoServer) (act : Bool) (pout : String),
      (Profile ⟨s, srv⟩ act pout).started = true →
      (Profile ⟨s, srv⟩ act pout).sleptSeconds = some ((profileSecondsOf s : Int) : ℚ)) := by
  refine ⟨?_, ?_, by decide, ?_⟩
  · intro h
    simp [profileSecondsOf, h]
  · intro h
    simp [profileSecondsOf, h]
  · intro srv act pout
    simp only [Profile]
    split
    · simp
    · split <;> simp

/-- Witness for C8: `seconds=7` is used exactly and the default cases give
30. -/
theorem C8_profile_duration_witness :
    profileSecondsOf "7" = 7 ∧ profileSecondsOf "" = 30 ∧
    (Profile ⟨"7", none⟩ false "P").sleptSeconds = some ((7 : Int) : ℚ) := by
  refine ⟨?_, (C8_profile_duration "x").2.2.1, ?_⟩
  · have h := (C8_profile_duration "7").1 (by decide)
    rw [h]
    decide
  · have h := (C8_profile_duration "7").2.2.2 none false "P" rfl
    rw [h, show profileSecondsOf "7" = 7 from by decide]

/-- C10: a `seconds` parameter parsing to a negative integer is kept, not
replaced by 30; it passes the write-timeout precondition whenever it is
below the configured timeout; and when the sampler starts, the handler
sleeps for that non-positive duration and the sampler is stopped
(inactive) on return. -/
theorem C10_negative_seconds_kept (s : String) (n : Int)
    (hn : n < 0) (hs : goParseInt10 s = n) :
    profileSecondsOf s = n ∧
    (∀ wt : Int, wt ≠ 0 → (n : ℚ) < durationSeconds wt →
      durationExceedsWriteTimeout (some ⟨wt⟩) ((profileSecondsOf s : Int) : ℚ)
        = false) ∧
    (∀ (srv : Option GoServer) (pout : String),
      (Profile ⟨s, srv⟩ false pout).started = true →
      (Profile ⟨s, srv⟩ false pout).sleptSeconds = some ((n : ℚ)) ∧
      ((n : ℚ) ≤ 0) ∧
      (Profile ⟨s, srv⟩ false pout).activeAfter = false) := by
  have hne : n ≠ 0 := by omega
  have hsec : profileSecondsOf s = n := by simp [profileSecondsOf, hs, hne]
  refine ⟨hsec, ?_, ?_⟩
  · intro wt hwt hlt
    rw [hsec]
    simp [durationExceedsWriteTimeout, not_le.mpr hlt]
  · intro srv pout hst
    have hq : ((n : ℚ) ≤ 0) := by exact_mod_cast hn.le
    revert hst
    simp only [Profile, hsec]
    split
    · simp
    · split
      · simp
      · intro _
        exact ⟨rfl, hq, rfl⟩

/-- Witness for C10: `seconds=-5` under a 5-second write-timeout keeps the
duration -5, passes the write-timeout check, and the sampler run sleeps a
non-positive duration. -/
theorem C10_negative_seconds_kept_witness :
    profileSecondsOf "-5" = -5 ∧
    durationExceedsWriteTimeout (some ⟨5000000000⟩)
      ((profileSecondsOf "-5" : Int) : ℚ) = false ∧
    (Profile ⟨"-5", some ⟨5000000000⟩⟩ false "P").sleptSeconds
      = some ((-5 : Int) : ℚ) ∧
    (Profile ⟨"-5", some ⟨5000000000⟩⟩ false "P").activeAfter = false := by
  have h := C10_negative_seconds_kept "-5" (-5) (by decide) (by decide)
  have hlt : ((-5 : Int) : ℚ) < durationSeconds 5000000000 := by
    norm_num [durationSeconds]
  have hd : durationExceedsWriteTimeout (some ⟨5000000000⟩)
      ((profileSecondsOf "-5" : Int) : ℚ) = false :=
    h.2.1 5000000000 (by decide) hlt
  have hstart : (Profile ⟨"-5", some ⟨5000000000⟩⟩ false "P").started = true := by
    simp only [Profile]
    rw [if_neg (by rw [hd]; exact Bool.false_ne_true)]
    simp
  have h3 := h.2.2 (some ⟨5000000000⟩) "P" hstart
  exact ⟨h.1, hd, h3.1, h3.2.2⟩

/-- C3 counterexample: `Symbol` parses tokens with `strconv.ParseUint`
base 0, so the bare tokens `1a` and `2b` (no `0x` prefix) fail to parse,
yield 0 and are skipped WITHOUT consulting the symbol table, even when
addresses `0x1a` and `0x2b` are present in it: the body for `1a+2b+0` is
the `num_symbols` line alone, not the claimed resolution lines. -/
theorem C3_bare_hex_tokens_not_resolved :
    sampleSymtab 26 = some "funcA" ∧ sampleSymtab 43 = some "funcB" ∧
    goParseUint0 "1a" = 0 ∧ goParseUint0 "2b" = 0 ∧
    (Symbol sampleSymtab "1a+2b+0").body = "num_symbols: 1\n" ∧
    (Symbol sampleSymtab "1a+2b+0").body
      ≠ "num_symbols: 1\n" ++ "0x1a funcA\n" ++ "0x2b funcB\n" := by
  exact ⟨rfl, rfl, by decide, by decide, by decide, by decide⟩

/-- C3 (amended): tokens are parsed as base-0 unsigned integers, so a body
`0x1a+0x2b+0` resolves its first two tokens through the symbol table
(emitting a `<hex-address> <function-name>` line for each that is present)
and skips `0`, while the bare tokens `1a` and `2b` parse to 0 and are
skipped like `0`; for every input the output begins with the line
`num_symbols: 1`. -/
theorem C3_amended_symbol_resolution (tbl : Nat → Option String) (f g : String)
    (h1 : tbl 26 = some f) (h2 : tbl 43 = some g) :
    (Symbol tbl "0x1a+0x2b+0").body
      = "num_symbols: 1\n" ++ ("0x1a " ++ f ++ "\n") ++ ("0x2b " ++ g ++ "\n") ∧
    (Symbol tbl "1a+2b+0").body = "num_symbols: 1\n" ∧
    ∀ (tbl2 : Nat → Option String) (input : String),
      ∃ rest, (Symbol tbl2 input).body = "num_symbols: 1\n" ++ rest := by
  refine ⟨?_, ?_, fun tbl2 input => ⟨_, rfl⟩⟩
  · show symbolBody tbl (readResults "0x1a+0x2b+0") = _
    rw [show readResults "0x1a+0x2b+0"
        = [("0x1a+", Option.none), ("0x2b+", Option.none), ("0", some ReadErr.eof)]
      from rfl]
    simp only [symbolBody, symbolLoop]
    rw [tokenLines_resolved tbl ("0x1a+".dropRight 1) 26 f (by decide) (by decide) h1,
      tokenLines_resolved tbl ("0x2b+".dropRight 1) 43 g (by decide) (by decide) h2,
      tokenLines_skipped tbl "0" (by decide),
      show goHex 26 = "0x1a" from rfl, show goHex 43 = "0x2b" from rfl]
    simp [String.join, String.append_assoc]
  · show symbolBody tbl (readResults "1a+2b+0") = _
    rw [show readResults "1a+2b+0"
        = [("1a+", Option.none), ("2b+", Option.none), ("0", some ReadErr.eof)]
      from rfl]
    simp only [symbolBody, symbolLoop]
    rw [tokenLines_skipped tbl ("1a+".dropRight 1) (by decide),
      tokenLines_skipped tbl ("2b+".dropRight 1) (by decide),
      tokenLines_skipped tbl "0" (by decide)]
    simp [String.join]

/-- Witness for C3's amended theorem at the sample symbol table. -/
theorem C3_amended_symbol_resolution_witness :
    (Symbol sampleSymtab "0x1a+0x2b+0").body
      = "num_symbols: 1\n" ++ ("0x1a " ++ "funcA" ++ "\n")
        ++ ("0x2b " ++ "funcB" ++ "\n") ∧
    (Symbol sampleSymtab "1a+2b+0").body = "num_symbols: 1\n" := by
  have h := C3_amended_symbol_resolution sampleSymtab "funcA" "funcB" rfl rfl
  exact ⟨h.1, h.2.1⟩

/-- C9: in the `Symbol` read loop, a read error other than end-of-input
appends exactly one `reading request:` line after the lines of the tokens
read so far and stops (the remainder of the stream is ignored), while
end-of-input stops without an error line; in both cases the word carried
by the terminating read result is still processed. -/
theorem C9_symbol_read_loop_errors (tbl : Nat → Option String)
    (pre : List (String × Option ReadErr)) (w msg : String)
    (rest1 rest2 : List (String × Option ReadErr))
    (hpre : ∀ p ∈ pre, p.2 = Option.none) :
    symbolLoop tbl (pre ++ (w, some (ReadErr.other msg)) :: rest1)
      = (pre.map (fun p => tokenLines tbl (p.1.dropRight 1))).flatten
          ++ (tokenLines tbl w ++ ["reading request: " ++ msg]) ∧
    symbolLoop tbl (pre ++ (w, some ReadErr.eof) :: rest2)
      = (pre.map (fun p => tokenLines tbl (p.1.dropRight 1))).flatten
          ++ tokenLines tbl w := by
  induction pre with
  | nil => simp [symbolLoop]
  | cons p t ih =>
    obtain ⟨w0, e0⟩ := p
    have h0 : e0 = Option.none := hpre (w0, e0) (List.mem_cons_self _ _)
    subst h0
    have ih2 := ih (fun q hq => hpre q (List.mem_cons_of_mem _ hq))
    constructor
    · simp [symbolLoop, ih2.1, List.append_assoc]
    · simp [symbolLoop, ih2.2, List.append_assoc]

/-- Witness for C9: after one good token, a failing read with word `0x2b`
still resolves that word and appends one error line, while end-of-input
stops silently. -/
theorem C9_symbol_read_loop_errors_witness :
    symbolLoop sampleSymtab
      ([("0x1a+", Option.none)] ++ ("0x2b", some (ReadErr.other "read failed")) :: [])
      = ["0x1a funcA", "0x2b funcB", "reading request: read failed"] ∧
    symbolLoop sampleSymtab
      ([("0x1a+", Option.none)] ++ ("0x2b", some ReadErr.eof) :: [])
      = ["0x1a funcA", "0x2b funcB"] := by
  have h := C9_symbol_read_loop_errors sampleSymtab [("0x1a+", Option.none)]
    "0x2b" "read failed" [] [] (by decide)
  exact ⟨h.1.trans (by decide), h.2.trans (by decide)⟩

end PprofModel
